import Mathlib

/-!
Verification of the anonymity-checking core of the proxy_pool repository.

The development shallowly embeds the two source files the claims are about:

* `src/helper/anonymousChecker.py` — `AnonymousChecker._get_real_ip`,
  `AnonymousChecker._check_anonymous` and `AnonymousChecker.run`.
  The network is modelled by explicit response values handed to the
  embedded functions: a stage-1 response is either one of the exception
  outcomes caught by the code (`requests.exceptions.Timeout`,
  `requests.exceptions.ProxyError`, any other `Exception`) or a parsed
  `origin` field; a stage-2 response either fails (any `Exception`,
  caught by the inner `try`) or yields the parsed `headers` mapping.

* `src/fetcher/freeproxyAdapter.py` — `FreeproxyAdapter.fetch_all`, the
  deduplicating merge over the individual source collectors.  Each
  collector is modelled by the list of endpoint strings it yields plus a
  flag recording whether its underlying request raised (every fetcher
  issues its request before yielding anything, and an exception is caught
  at the collector boundary, so a failed collector yields nothing).

Python truthiness of an optional string (`if real_ip:`) is modelled by
`truthy`; Python substring membership (`real_ip in header_value`) by
`strContains`; `dict.get(k, "")` by `headerGet`.
-/

namespace ProxyPool

/-- Python truthiness of an optional string: `None` and `""` are falsy. -/
def truthy : Option String → Bool
  | none => false
  | some s => s ≠ ""

/-- Python `str.split(sep)` for a one-character separator, over the
character list: every separator occurrence cuts, empty pieces are kept,
and the empty string yields `[""]`. -/
def splitCharAux (sep : Char) : List Char → List Char → List String
  | [], acc => [String.mk acc.reverse]
  | c :: rest, acc =>
    if c = sep then String.mk acc.reverse :: splitCharAux sep rest []
    else splitCharAux sep rest (c :: acc)

/-- Python `s.split(sep)` for a one-character separator. -/
def splitChar (sep : Char) (s : String) : List String :=
  splitCharAux sep s.data []

/-- The ASCII whitespace removed by Python `str.strip()`. -/
def isSpaceChar (c : Char) : Bool :=
  c = ' ' || c = '\t' || c = '\n' || c = '\x0d' || c = '\x0b' || c = '\x0c'

/-- Python `s.strip()`: drop whitespace from both ends. -/
def strip (s : String) : String :=
  String.mk (((s.data.dropWhile isSpaceChar).reverse.dropWhile isSpaceChar).reverse)

/-- `as` is a prefix of `bs` (over characters). -/
def isPrefixL : List Char → List Char → Bool
  | [], _ => true
  | _ :: _, [] => false
  | a :: as, b :: bs => a = b && isPrefixL as bs

/-- `needle` occurs contiguously in the haystack. -/
def containsAux (needle : List Char) : List Char → Bool
  | [] => needle.isEmpty
  | c :: rest => isPrefixL needle (c :: rest) || containsAux needle rest

/-- Python `needle in hay` for strings (substring membership; the empty
needle is a member of anything). -/
def strContains (hay needle : String) : Bool :=
  containsAux needle.data hay.data

/-- `origin.split(',')` followed by `.strip()` of each piece
(line 104 of anonymousChecker.py). -/
def parseOrigins (origin : String) : List String :=
  (splitChar ',' origin).map strip

/-- `proxy_str.split(':')[0]` (line 82 of anonymousChecker.py). -/
def proxyIp (proxy_str : String) : String :=
  (splitChar ':' proxy_str).headD ""

/-- The `PROXY_HEADERS` constant (lines 24–35 of anonymousChecker.py). -/
def PROXY_HEADERS : List String :=
  ["X-Forwarded-For", "X-Real-Ip", "X-Forwarded", "Forwarded-For",
   "Forwarded", "Via", "X-Client-Ip", "Client-Ip", "True-Client-Ip",
   "Cf-Connecting-Ip"]

/-- `response_headers.get(header, "")`: first binding of the name in the
parsed header map, defaulting to the empty string. -/
def headerGet (headers : List (String × String)) (name : String) : String :=
  match headers.find? (fun p => p.fst == name) with
  | some p => p.snd
  | none => ""

/-- Outcome of the stage-1 request (`requests.get(self.check_url, ...)`
plus `raise_for_status` and JSON parsing): either one of the exception
classes caught at lines 145–151, or the parsed `origin` field (line 103;
a missing field defaults to `""`). -/
inductive Stage1Resp where
  | timeout
  | proxyError
  | otherError (msg : String)
  | ok (origin : String)
deriving DecidableEq, Repr

/-- Outcome of the stage-2 request (`requests.get(self.headers_url, ...)`):
either any exception (caught by the inner `try` at lines 121–140) or the
parsed `headers` mapping (line 130). -/
inductive Stage2Resp where
  | fail
  | ok (headers : List (String × String))
deriving DecidableEq, Repr

/-- The tuple returned by `_check_anonymous` (minus the echoed proxy
object), plus one instrumentation bit recording whether the stage-2
request was issued at all. -/
structure CheckResult where
  isAnonymous : Bool
  origin : Option String
  reason : String
  stage2Attempted : Bool
deriving DecidableEq, Repr

/-- The header-leak scan of lines 133–136: the first name in
`PROXY_HEADERS` whose reflected value is non-empty and contains a truthy
`real_ip` as a substring. -/
def headerLeak (real : Option String) (headers : List (String × String)) :
    Option String :=
  PROXY_HEADERS.find? (fun h =>
    let v := headerGet headers h
    v != "" && truthy real && strContains v (real.getD ""))

/-- `AnonymousChecker._check_anonymous` (lines 65–151), with the two
network responses passed in explicitly. -/
def check_anonymous (proxy_str : String) (real : Option String)
    (s1 : Stage1Resp) (s2 : Stage2Resp) : CheckResult :=
  match s1 with
  | .timeout => ⟨false, none, "超时", false⟩
  | .proxyError => ⟨false, none, "代理连接失败", false⟩
  | .otherError msg => ⟨false, none, "异常: " ++ msg.take 50, false⟩
  | .ok origin =>
    let origin_ips := parseOrigins origin
    -- 检查 1 (line 107): real IP among the reported origins
    if truthy real && origin_ips.contains (real.getD "") then
      ⟨false, some origin, "透明代理(暴露真实IP)", false⟩
    -- 检查 2 (line 111): origin must hold exactly one IP
    else if origin_ips.length != 1 then
      ⟨false, some origin, "普通匿名(多IP)", false⟩
    -- line 114: single origin that is not the proxy's own IP
    else if origin_ips.headD "" != proxyIp proxy_str
        && truthy real && origin_ips.headD "" == real.getD "" then
      ⟨false, some origin, "透明代理", false⟩
    else
      -- 步骤 2 (lines 120–143): header probe, best-effort
      match s2 with
      | .fail => ⟨true, some origin, "高匿代理", true⟩
      | .ok headers =>
        match headerLeak real headers with
        | some h => ⟨false, some origin, "头部暴露(" ++ h ++ ")", true⟩
        | none => ⟨true, some origin, "高匿代理", true⟩

/-- Outcome of the direct (unproxied) request of `_get_real_ip`: any
exception collapses to `fail`; success carries the parsed `origin` field. -/
inductive FetchResp where
  | fail
  | ok (origin : String)
deriving DecidableEq, Repr

/-- `resp.json().get("origin", "").split(',')[0].strip()` (line 58). -/
def parseRealIp (origin : String) : String :=
  strip ((splitChar ',' origin).headD "")

/-- `AnonymousChecker._get_real_ip` (lines 51–63) as a state transformer
on the memo field `self._real_ip`.  Returns
(returned value, new cache, whether the oracle request was issued). -/
def get_real_ip (cache : Option String) (resp : FetchResp) :
    Option String × Option String × Bool :=
  if truthy cache then (cache, cache, false)
  else
    match resp with
    | .ok origin =>
      let ip := parseRealIp origin
      (some ip, some ip, true)
    | .fail => (none, cache, true)

/-- The aggregate counters returned by `run` (lines 207–211). -/
structure Counters where
  anonymous : Nat
  transparent : Nat
  failed : Nat
deriving DecidableEq, Repr

/-- The two responses the network would hand one probe. -/
structure ProbeEnv where
  s1 : Stage1Resp
  s2 : Stage2Resp
deriving DecidableEq, Repr

/-- A network request issued during a run. -/
inductive NetEvent where
  | identityFetch
  | stage1Probe (proxy : String)
  | stage2Probe (proxy : String)
deriving DecidableEq, Repr

/-- The network requests one probe issues: stage 1 always, stage 2 only
when the decision procedure reaches it. -/
def probeEvents (proxy : String) (r : CheckResult) : List NetEvent :=
  .stage1Probe proxy :: (if r.stage2Attempted then [.stage2Probe proxy] else [])

/-- One result-collection step of `run` (lines 186–200): a failed probe
(`origin is None`) bumps `failed_count`; an anonymous one is written to
the sink and bumps `anonymous_count`; anything else bumps
`transparent_count`. -/
def runStep (real : Option String) (acc : Counters × List String)
    (item : String × ProbeEnv) : Counters × List String :=
  let r := check_anonymous item.1 real item.2.s1 item.2.s2
  if r.origin = none then
    ({ acc.1 with failed := acc.1.failed + 1 }, acc.2)
  else if r.isAnonymous then
    ({ acc.1 with anonymous := acc.1.anonymous + 1 }, acc.2 ++ [item.1])
  else
    ({ acc.1 with transparent := acc.1.transparent + 1 }, acc.2)

/-- `AnonymousChecker.run` (lines 153–211) on a fresh checker
(`self._real_ip = None`): resolve the real IP first, then, if any
candidates exist, probe them all and aggregate.  Returns the counters,
the endpoints written to the anonymous sink, and the network requests
issued.  The thread pool's completion order only permutes which probe is
aggregated when; the counters and the sink membership are modelled by
processing the candidates in submission order. -/
def run (identityResp : FetchResp) (proxies : List (String × ProbeEnv)) :
    Counters × List String × List NetEvent :=
  let real := (get_real_ip none identityResp).1
  if proxies = [] then
    (⟨0, 0, 0⟩, [], [NetEvent.identityFetch])
  else
    let (c, sink) := proxies.foldl (runStep real) (⟨0, 0, 0⟩, [])
    (c, sink,
      NetEvent.identityFetch ::
        proxies.flatMap (fun it =>
          probeEvents it.1 (check_anonymous it.1 real it.2.s1 it.2.s2)))

/-- One source collector of `freeproxyAdapter.py`: the endpoint strings
its request would yield, and whether the underlying request raised.
Every fetcher issues its request before yielding anything and exceptions
are caught at the collector boundary, so a failed collector yields
nothing. -/
structure Collector where
  items : List String
  failed : Bool
deriving DecidableEq, Repr

/-- What one collector contributes to the merged stream. -/
def collectorYield (c : Collector) : List String :=
  if c.failed then [] else c.items

/-- The inner loop of `fetch_all` (lines 199–203): yield each endpoint
not in the shared `seen` set, adding it.  Returns the updated set and
the yielded endpoints. -/
def fetchLoop (seen : List String) : List String → List String × List String
  | [] => (seen, [])
  | p :: rest =>
    if p ∈ seen then fetchLoop seen rest
    else
      let r := fetchLoop (p :: seen) rest
      (r.1, p :: r.2)

/-- The outer loop of `fetch_all` (lines 196–208): each source in order,
threading the shared `seen` set. -/
def fetchAllLoop (seen : List String) : List Collector → List String
  | [] => []
  | c :: cs =>
    let r := fetchLoop seen (collectorYield c)
    r.2 ++ fetchAllLoop r.1 cs

/-- `FreeproxyAdapter.fetch_all` (lines 178–208). -/
def fetch_all (cs : List Collector) : List String :=
  fetchAllLoop [] cs

/-- The stage-1 outcomes caught as exceptions (lines 145–151). -/
def stage1Failed : Stage1Resp → Bool
  | .ok _ => false
  | _ => true

/-- The classification `run` receives for one submitted candidate. -/
def probeResult (real : Option String) (it : String × ProbeEnv) : CheckResult :=
  check_anonymous it.1 real it.2.s1 it.2.s2

/-- The candidate is counted as failed by `run` (`origin is None`). -/
def failP (real : Option String) (it : String × ProbeEnv) : Bool :=
  (probeResult real it).origin.isNone

/-- The candidate is counted as anonymous by `run` and written to the sink. -/
def anonP (real : Option String) (it : String × ProbeEnv) : Bool :=
  !(probeResult real it).origin.isNone && (probeResult real it).isAnonymous

/-- The candidate is counted as transparent by `run`. -/
def transP (real : Option String) (it : String × ProbeEnv) : Bool :=
  !(probeResult real it).origin.isNone && !(probeResult real it).isAnonymous

/-! ## Helper lemmas -/

/-- Whenever the first stage-1 rule did not fire and the origin list is a
singleton, the nested guard of line 117 (`real_ip and origin_ips[0] ==
real_ip`) is false: a single origin equal to a truthy real IP would have
made rule 1 fire already. -/
theorem thirdGuard_false (proxy_str : String) (real : Option String) (origin : String)
    (hno1 : (truthy real && (parseOrigins origin).contains (real.getD "")) = false)
    (hlen : (parseOrigins origin).length = 1) :
    (((parseOrigins origin).headD "" != proxyIp proxy_str)
      && truthy real && ((parseOrigins origin).headD "" == real.getD "")) = false := by
  obtain ⟨a, ha⟩ := List.length_eq_one.mp hlen
  rw [ha] at hno1 ⊢
  rcases h : truthy real with _ | _
  · simp [h]
  · rw [h] at hno1
    simp only [List.contains_cons, List.contains_nil, Bool.or_false, Bool.true_and] at hno1
    have hne : (a == real.getD "") = false := by
      rw [beq_eq_false_iff_ne] at hno1 ⊢
      exact fun hc => hno1 hc.symm
    simp [hne]

/-- With a falsy real IP the header scan of lines 133–136 finds nothing:
its condition conjoins `real_ip`'s truthiness. -/
theorem headerLeak_none_of_absent (real : Option String) (headers : List (String × String))
    (habs : truthy real = false) : headerLeak real headers = none := by
  apply List.find?_eq_none.mpr
  intro h _
  simp [habs]

/-- Outcomes of a probe that passes both stage-1 checks and reaches the
header probe. -/
theorem check_stage2_reached (proxy_str : String) (real : Option String) (origin : String)
    (hno1 : (truthy real && (parseOrigins origin).contains (real.getD "")) = false)
    (hlen : (parseOrigins origin).length = 1) :
    (check_anonymous proxy_str real (.ok origin) .fail =
        ⟨true, some origin, "高匿代理", true⟩)
    ∧ (∀ headers, headerLeak real headers = none →
        check_anonymous proxy_str real (.ok origin) (.ok headers) =
          ⟨true, some origin, "高匿代理", true⟩)
    ∧ (∀ headers hname, headerLeak real headers = some hname →
        check_anonymous proxy_str real (.ok origin) (.ok headers) =
          ⟨false, some origin, "头部暴露(" ++ hname ++ ")", true⟩) := by
  have h3 := thirdGuard_false proxy_str real origin hno1 hlen
  have h2 : ((parseOrigins origin).length != 1) = false := by simp [hlen]
  refine ⟨?_, ?_, ?_⟩
  · simp only [check_anonymous]
    rw [hno1, h2, h3]
    rfl
  · intro headers hl
    simp only [check_anonymous]
    rw [hno1, h2, h3]
    show (match headerLeak real headers with
      | some h => CheckResult.mk false (some origin) ("头部暴露(" ++ h ++ ")") true
      | none => CheckResult.mk true (some origin) "高匿代理" true) = _
    rw [hl]
  · intro headers hname hl
    simp only [check_anonymous]
    rw [hno1, h2, h3]
    show (match headerLeak real headers with
      | some h => CheckResult.mk false (some origin) ("头部暴露(" ++ h ++ ")") true
      | none => CheckResult.mk true (some origin) "高匿代理" true) = _
    rw [hl]

/-- With a falsy real IP, every single-origin probe classifies anonymous,
whatever the header probe returns. -/
theorem check_absent_single (proxy_str : String) (real : Option String)
    (origin : String) (s2 : Stage2Resp)
    (habs : truthy real = false) (hlen : (parseOrigins origin).length = 1) :
    check_anonymous proxy_str real (.ok origin) s2 =
      ⟨true, some origin, "高匿代理", true⟩ := by
  have hno1 : (truthy real && (parseOrigins origin).contains (real.getD "")) = false := by
    rw [habs]; rfl
  obtain ⟨hf, hok, _⟩ := check_stage2_reached proxy_str real origin hno1 hlen
  cases s2 with
  | fail => exact hf
  | ok headers => exact hok headers (headerLeak_none_of_absent real headers habs)

/-- The aggregation loop of `run`, characterised: each completed probe
bumps exactly one counter, and exactly the anonymous ones are appended
to the sink. -/
theorem foldl_runStep_eq (real : Option String) (proxies : List (String × ProbeEnv)) :
    ∀ (c : Counters) (sink : List String),
    proxies.foldl (runStep real) (c, sink) =
      (⟨c.anonymous + proxies.countP (anonP real),
        c.transparent + proxies.countP (transP real),
        c.failed + proxies.countP (failP real)⟩,
       sink ++ (proxies.filter (anonP real)).map Prod.fst) := by
  induction proxies with
  | nil => simp
  | cons it rest ih =>
    intro c sink
    rw [List.foldl_cons]
    rcases ho : (probeResult real it).origin with _ | o
    · have hr : runStep real (c, sink) it = ({ c with failed := c.failed + 1 }, sink) := by
        simp [runStep, probeResult] at ho ⊢
        simp [ho]
      rw [hr, ih]
      have hf : failP real it = true := by simp [failP, ho]
      have ha : anonP real it = false := by simp [anonP, ho]
      have ht : transP real it = false := by simp [transP, ho]
      simp [List.countP_cons, List.filter_cons, hf, ha, ht]
      omega
    · rcases han : (probeResult real it).isAnonymous with _ | _
      · have hr : runStep real (c, sink) it =
            ({ c with transparent := c.transparent + 1 }, sink) := by
          simp [runStep, probeResult] at ho han ⊢
          simp [ho, han]
        rw [hr, ih]
        have hf : failP real it = false := by simp [failP, ho]
        have ha : anonP real it = false := by simp [anonP, han]
        have ht : transP real it = true := by simp [transP, ho, han]
        simp [List.countP_cons, List.filter_cons, hf, ha, ht]
        omega
      · have hr : runStep real (c, sink) it =
            ({ c with anonymous := c.anonymous + 1 }, sink ++ [it.1]) := by
          simp [runStep, probeResult] at ho han ⊢
          simp [ho, han]
        rw [hr, ih]
        have hf : failP real it = false := by simp [failP, ho]
        have ha : anonP real it = true := by simp [anonP, ho, han]
        have ht : transP real it = false := by simp [transP, han]
        simp [List.countP_cons, List.filter_cons, hf, ha, ht]
        omega

/-- `run`, characterised in terms of the per-candidate classification. -/
theorem run_eq (idr : FetchResp) (proxies : List (String × ProbeEnv)) :
    run idr proxies =
      (⟨proxies.countP (anonP (get_real_ip none idr).1),
        proxies.countP (transP (get_real_ip none idr).1),
        proxies.countP (failP (get_real_ip none idr).1)⟩,
       (proxies.filter (anonP (get_real_ip none idr).1)).map Prod.fst,
       NetEvent.identityFetch ::
         proxies.flatMap (fun it =>
           probeEvents it.1 (check_anonymous it.1 (get_real_ip none idr).1 it.2.s1 it.2.s2))) := by
  cases proxies with
  | nil => rfl
  | cons it rest =>
    have hdef : run idr (it :: rest) =
        (((it :: rest).foldl (runStep (get_real_ip none idr).1) (⟨0, 0, 0⟩, [])).1,
         ((it :: rest).foldl (runStep (get_real_ip none idr).1) (⟨0, 0, 0⟩, [])).2,
         NetEvent.identityFetch ::
           (it :: rest).flatMap (fun it =>
             probeEvents it.1 (check_anonymous it.1 (get_real_ip none idr).1 it.2.s1 it.2.s2))) := rfl
    rw [hdef, foldl_runStep_eq]
    simp

/-- The endpoints yielded while scanning one source are exactly the fresh
ones, in order. -/
theorem fetchLoop_mem (l : List String) :
    ∀ (seen : List String) (x : String),
      x ∈ (fetchLoop seen l).2 ↔ x ∈ l ∧ x ∉ seen := by
  induction l with
  | nil => simp [fetchLoop]
  | cons p rest ih =>
    intro seen x
    simp only [fetchLoop]
    by_cases hp : p ∈ seen
    · rw [if_pos hp, ih]
      simp only [List.mem_cons]
      constructor
      · exact fun ⟨hx, hns⟩ => ⟨Or.inr hx, hns⟩
      · rintro ⟨hx | hx, hns⟩
        · exact absurd (hx ▸ hp) hns
        · exact ⟨hx, hns⟩
    · rw [if_neg hp]
      simp only [List.mem_cons, ih, List.mem_cons]
      constructor
      · rintro (rfl | ⟨hx, hns⟩)
        · exact ⟨Or.inl rfl, hp⟩
        · exact ⟨Or.inr hx, fun hs => hns (Or.inr hs)⟩
      · rintro ⟨rfl | hx, hns⟩
        · exact Or.inl rfl
        · by_cases hxp : x = p
          · exact Or.inl hxp
          · exact Or.inr ⟨hx, fun hs => by
              rcases hs with h | h
              · exact hxp h
              · exact hns h⟩

/-- The `seen` set after scanning one source holds the source's items and
the previous set. -/
theorem fetchLoop_seen_mem (l : List String) :
    ∀ (seen : List String) (x : String),
      x ∈ (fetchLoop seen l).1 ↔ x ∈ l ∨ x ∈ seen := by
  induction l with
  | nil => simp [fetchLoop]
  | cons p rest ih =>
    intro seen x
    simp only [fetchLoop]
    by_cases hp : p ∈ seen
    · rw [if_pos hp, ih]
      simp only [List.mem_cons]
      constructor
      · rintro (hx | hx)
        · exact Or.inl (Or.inr hx)
        · exact Or.inr hx
      · rintro ((rfl | hx) | hx)
        · exact Or.inr hp
        · exact Or.inl hx
        · exact Or.inr hx
    · rw [if_neg hp]
      show x ∈ (fetchLoop (p :: seen) rest).1 ↔ _
      rw [ih]
      simp only [List.mem_cons]
      tauto

/-- One source's contribution holds no duplicates. -/
theorem fetchLoop_nodup (l : List String) :
    ∀ (seen : List String), ((fetchLoop seen l).2).Nodup := by
  induction l with
  | nil => simp [fetchLoop]
  | cons p rest ih =>
    intro seen
    simp only [fetchLoop]
    by_cases hp : p ∈ seen
    · rw [if_pos hp]; exact ih seen
    · rw [if_neg hp]
      refine List.nodup_cons.mpr ⟨?_, ih (p :: seen)⟩
      intro hm
      exact ((fetchLoop_mem rest (p :: seen) p).mp hm).2 (List.mem_cons_self p seen)

/-- Membership in the merged stream: an endpoint some source yields that
was not already seen. -/
theorem fetchAllLoop_mem (cs : List Collector) :
    ∀ (seen : List String) (x : String),
      x ∈ fetchAllLoop seen cs ↔
        (∃ c ∈ cs, x ∈ collectorYield c) ∧ x ∉ seen := by
  induction cs with
  | nil => simp [fetchAllLoop]
  | cons c cs ih =>
    intro seen x
    simp only [fetchAllLoop, List.mem_append]
    rw [fetchLoop_mem, ih, fetchLoop_seen_mem]
    simp only [List.mem_cons]
    constructor
    · rintro (⟨hy, hns⟩ | ⟨⟨c', hc', hy⟩, hns⟩)
      · exact ⟨⟨c, Or.inl rfl, hy⟩, hns⟩
      · exact ⟨⟨c', Or.inr hc', hy⟩, fun hs => hns (Or.inr hs)⟩
    · rintro ⟨⟨c', hc' | hc', hy⟩, hns⟩
      · exact Or.inl ⟨hc' ▸ hy, hns⟩
      · by_cases hcy : x ∈ collectorYield c
        · exact Or.inl ⟨hcy, hns⟩
        · exact Or.inr ⟨⟨c', hc', hy⟩, fun hs => by
            rcases hs with h | h
            · exact hcy h
            · exact hns h⟩

/-- The merged stream holds no duplicates. -/
theorem fetchAllLoop_nodup (cs : List Collector) :
    ∀ (seen : List String), (fetchAllLoop seen cs).Nodup := by
  induction cs with
  | nil => simp [fetchAllLoop]
  | cons c cs ih =>
    intro seen
    simp only [fetchAllLoop]
    rw [List.nodup_append]
    refine ⟨fetchLoop_nodup _ seen, ih _, ?_⟩
    intro x hx1 hx2
    have h1 := (fetchLoop_mem _ seen x).mp hx1
    have h2 := (fetchAllLoop_mem cs _ x).mp hx2
    exact h2.2 ((fetchLoop_seen_mem _ seen x).mpr (Or.inl h1.1))

/-- A collector whose request raised is invisible to the merge. -/
theorem fetchAllLoop_skip (post : List Collector) (items : List String) :
    ∀ (pre : List Collector) (seen : List String),
      fetchAllLoop seen (pre ++ ⟨items, true⟩ :: post) =
        fetchAllLoop seen (pre ++ post) := by
  intro pre
  induction pre with
  | nil =>
    intro seen
    simp [fetchAllLoop, collectorYield, fetchLoop]
  | cons c cs ih =>
    intro seen
    simp only [List.cons_append, fetchAllLoop, List.append_eq]
    rw [ih]

/-! ## The claims -/

/-- C1: when the real identity is known (truthy) and appears among the
parsed stage-1 origin IPs, the probe returns the non-anonymous
(transparent) classification with the identity-exposure reason
"透明代理(暴露真实IP)" ("transparent proxy, exposes real IP"), without
reaching stage 2 — for every origin list, in particular one with more
than one element, so this rule takes priority over the multi-origin
rule. -/
theorem identity_exposure_priority (proxy_str : String) (real : Option String)
    (origin : String) (s2 : Stage2Resp)
    (hknown : truthy real = true)
    (hmem : (parseOrigins origin).contains (real.getD "") = true) :
    check_anonymous proxy_str real (.ok origin) s2 =
      ⟨false, some origin, "透明代理(暴露真实IP)", false⟩ := by
  simp only [check_anonymous]
  rw [hknown, hmem]
  rfl

/-- Witness for C1 at a concrete input whose origin list has two
elements, one of them the known real identity: the reason is the
identity-exposure one, not the multi-origin one. -/
theorem identity_exposure_priority_witness :
    check_anonymous "1.2.3.4:8080" (some "9.9.9.9") (.ok "5.6.7.8, 9.9.9.9") (.ok []) =
      ⟨false, some "5.6.7.8, 9.9.9.9", "透明代理(暴露真实IP)", false⟩
    ∧ 1 < (parseOrigins "5.6.7.8, 9.9.9.9").length :=
  ⟨identity_exposure_priority "1.2.3.4:8080" (some "9.9.9.9") "5.6.7.8, 9.9.9.9" (.ok [])
    (by decide) (by decide), by decide⟩

/-- C2: when the identity-exposure rule did not fire and the parsed
origin list has more than one element, the probe returns the
non-anonymous classification with the multiple-origins reason
"普通匿名(多IP)", and the stage-2 header probe is not performed
(`stage2Attempted = false`), whatever the stage-2 oracle would have
answered. -/
theorem multi_origin_transparent (proxy_str : String) (real : Option String)
    (origin : String) (s2 : Stage2Resp)
    (hno1 : (truthy real && (parseOrigins origin).contains (real.getD "")) = false)
    (hlen : 1 < (parseOrigins origin).length) :
    check_anonymous proxy_str real (.ok origin) s2 =
      ⟨false, some origin, "普通匿名(多IP)", false⟩ := by
  have h2 : ((parseOrigins origin).length != 1) = true := by
    simp only [bne_iff_ne, ne_eq]
    omega
  simp only [check_anonymous]
  rw [hno1, h2]
  rfl

/-- Witness for C2: a two-origin response, neither IP the real identity,
with a stage-2 response that would have leaked — still transparent via
the multi-origin reason and stage 2 unattempted. -/
theorem multi_origin_transparent_witness :
    check_anonymous "1.2.3.4:8080" (some "9.9.9.9")
      (.ok "5.6.7.8, 7.7.7.7") (.ok [("X-Forwarded-For", "9.9.9.9")]) =
      ⟨false, some "5.6.7.8, 7.7.7.7", "普通匿名(多IP)", false⟩ :=
  multi_origin_transparent "1.2.3.4:8080" (some "9.9.9.9") "5.6.7.8, 7.7.7.7"
    (.ok [("X-Forwarded-For", "9.9.9.9")]) (by decide) (by decide)

/-- C3 counterexample: at a concrete probe whose single reported origin
"5.6.7.8" is neither the candidate's own IP "1.2.3.4" nor the known real
identity "9.9.9.9", the code does NOT treat the case as a flagged
inconclusive edge case: it falls through, performs stage 2
(`stage2Attempted = true`) and silently classifies the candidate
Anonymous ("高匿代理"). -/
theorem single_origin_fallthrough_cex :
    parseOrigins "5.6.7.8" = ["5.6.7.8"]
    ∧ proxyIp "1.2.3.4:8080" = "1.2.3.4"
    ∧ ("5.6.7.8" : String) ≠ "1.2.3.4"
    ∧ ("5.6.7.8" : String) ≠ "9.9.9.9"
    ∧ check_anonymous "1.2.3.4:8080" (some "9.9.9.9") (.ok "5.6.7.8") (.ok []) =
        ⟨true, some "5.6.7.8", "高匿代理", true⟩ :=
  ⟨rfl, rfl, by decide, by decide, rfl⟩

/-- C3 as amended: a single-origin probe whose reported IP differs from
the candidate's own IP (and the identity rule did not fire) falls
through to the provisional-anonymous path: stage 2 is performed, and
when the header probe fails or finds no leaking header the candidate is
classified Anonymous, exactly as the in-code comment of lines 115–116
intends ("仍算匿名"). -/
theorem single_origin_fallthrough_amended (proxy_str : String) (real : Option String)
    (origin : String) (s2 : Stage2Resp)
    (hno1 : (truthy real && (parseOrigins origin).contains (real.getD "")) = false)
    (hlen : (parseOrigins origin).length = 1)
    (hne : (parseOrigins origin).headD "" ≠ proxyIp proxy_str) :
    (check_anonymous proxy_str real (.ok origin) s2).stage2Attempted = true
    ∧ (s2 = .fail → check_anonymous proxy_str real (.ok origin) s2 =
        ⟨true, some origin, "高匿代理", true⟩)
    ∧ (∀ headers, s2 = .ok headers → headerLeak real headers = none →
        check_anonymous proxy_str real (.ok origin) s2 =
          ⟨true, some origin, "高匿代理", true⟩) := by
  obtain ⟨hf, hok, hleak⟩ := check_stage2_reached proxy_str real origin hno1 hlen
  refine ⟨?_, fun h => h ▸ hf, fun headers h hl => h ▸ hok headers hl⟩
  cases s2 with
  | fail => rw [hf]
  | ok headers =>
    cases hl : headerLeak real headers with
    | none => rw [hok headers hl]
    | some hname => rw [hleak headers hname hl]

/-- Witness for the amended C3 at the counterexample's input. -/
theorem single_origin_fallthrough_amended_witness :
    (check_anonymous "1.2.3.4:8080" (some "9.9.9.9") (.ok "5.6.7.8") (.ok [])).stage2Attempted
        = true
    ∧ check_anonymous "1.2.3.4:8080" (some "9.9.9.9") (.ok "5.6.7.8") (.ok []) =
        ⟨true, some "5.6.7.8", "高匿代理", true⟩ := by
  have h := single_origin_fallthrough_amended "1.2.3.4:8080" (some "9.9.9.9") "5.6.7.8"
    (.ok []) (by decide) (by decide) (by decide)
  exact ⟨h.1, h.2.2 [] rfl (by decide)⟩

/-- C4: a stage-1 transport failure (timeout, relay-connection error, or
any other exception such as a non-parseable response) terminates the
probe with a failed outcome: origin is absent, the classification is not
anonymous, stage 2 is never attempted, the reason is the corresponding
one ("超时", "代理连接失败", or "异常: " plus the truncated message); and
in a run with such a probe, the failed counter is one more than the same
run without it while the sink is unchanged — the candidate's probe is
never written to the result sink. -/
theorem stage1_failure_terminal (real : Option String) (idr : FetchResp) (proxy : String)
    (s1 : Stage1Resp) (s2 : Stage2Resp)
    (pre post : List (String × ProbeEnv))
    (hfail : stage1Failed s1 = true) :
    (check_anonymous proxy real s1 s2).origin = none
    ∧ (check_anonymous proxy real s1 s2).isAnonymous = false
    ∧ (check_anonymous proxy real s1 s2).stage2Attempted = false
    ∧ (s1 = .timeout → (check_anonymous proxy real s1 s2).reason = "超时")
    ∧ (s1 = .proxyError → (check_anonymous proxy real s1 s2).reason = "代理连接失败")
    ∧ (∀ m, s1 = .otherError m →
        (check_anonymous proxy real s1 s2).reason = "异常: " ++ m.take 50)
    ∧ (run idr (pre ++ (proxy, ⟨s1, s2⟩) :: post)).1.failed
        = (run idr (pre ++ post)).1.failed + 1
    ∧ (run idr (pre ++ (proxy, ⟨s1, s2⟩) :: post)).1.anonymous
        = (run idr (pre ++ post)).1.anonymous
    ∧ (run idr (pre ++ (proxy, ⟨s1, s2⟩) :: post)).2.1 = (run idr (pre ++ post)).2.1 := by
  have horig : ∀ r : Option String, (check_anonymous proxy r s1 s2).origin = none := by
    intro r
    cases s1 with
    | timeout => rfl
    | proxyError => rfl
    | otherError m => rfl
    | ok o => simp [stage1Failed] at hfail
  have hfailP : failP (get_real_ip none idr).1 (proxy, ⟨s1, s2⟩) = true := by
    simp [failP, probeResult, horig]
  have hanonP : anonP (get_real_ip none idr).1 (proxy, ⟨s1, s2⟩) = false := by
    simp [anonP, probeResult, horig]
  refine ⟨horig real, ?_, ?_, ?_, ?_, ?_, ?_, ?_, ?_⟩
  · cases s1 with
    | timeout => rfl
    | proxyError => rfl
    | otherError m => rfl
    | ok o => simp [stage1Failed] at hfail
  · cases s1 with
    | timeout => rfl
    | proxyError => rfl
    | otherError m => rfl
    | ok o => simp [stage1Failed] at hfail
  · intro h; subst h; rfl
  · intro h; subst h; rfl
  · intro m h; subst h; rfl
  · rw [run_eq, run_eq]
    simp [List.countP_append, List.countP_cons, hfailP]
    omega
  · rw [run_eq, run_eq]
    simp [List.countP_append, List.countP_cons, hanonP]
  · rw [run_eq, run_eq]
    simp [List.filter_append, List.filter_cons, hanonP]

/-- Witness for C4: a candidate that times out on stage 1, alone in a
run; it is counted in the failed counter and the sink stays empty. -/
theorem stage1_failure_terminal_witness :
    (check_anonymous "10.0.0.7:9999" none .timeout .fail).origin = none
    ∧ (run .fail [("10.0.0.7:9999", ⟨.timeout, .fail⟩)]).1.failed
        = (run .fail ([] : List (String × ProbeEnv))).1.failed + 1
    ∧ (run .fail [("10.0.0.7:9999", ⟨.timeout, .fail⟩)]).2.1
        = (run .fail ([] : List (String × ProbeEnv))).2.1 := by
  have h := stage1_failure_terminal none .fail "10.0.0.7:9999" .timeout .fail [] [] rfl
  exact ⟨h.1, h.2.2.2.2.2.2.1, h.2.2.2.2.2.2.2.2⟩

/-- C5: a probe that reaches stage 2 with the provisional anonymous
verdict (stage-1 rules fired on neither the identity nor the origin
count) and whose stage-2 header request fails still returns the
anonymous classification from stage 1 — the stage-2 failure is
non-fatal. -/
theorem stage2_failure_nonfatal (proxy_str : String) (real : Option String)
    (origin : String)
    (hno1 : (truthy real && (parseOrigins origin).contains (real.getD "")) = false)
    (hlen : (parseOrigins origin).length = 1) :
    check_anonymous proxy_str real (.ok origin) .fail =
      ⟨true, some origin, "高匿代理", true⟩ :=
  (check_stage2_reached proxy_str real origin hno1 hlen).1

/-- Witness for C5 at a concrete single-origin probe whose header
request fails. -/
theorem stage2_failure_nonfatal_witness :
    check_anonymous "1.2.3.4:8080" (some "9.9.9.9") (.ok "1.2.3.4") .fail =
      ⟨true, some "1.2.3.4", "高匿代理", true⟩ :=
  stage2_failure_nonfatal "1.2.3.4:8080" (some "9.9.9.9") "1.2.3.4" (by decide) (by decide)

/-- C6: with the real identity absent (falsy), neither the
identity-exposure rule nor the header-leak rule can fire: every
single-origin probe classifies anonymous whatever the header probe
returns — in particular a candidate whose single origin differs from its
own host IP with a clean header probe — and any transparent
classification carries the multi-origin reason "普通匿名(多IP)". -/
theorem absent_identity_degraded (proxy_str : String) (real : Option String)
    (s1 : Stage1Resp) (s2 : Stage2Resp)
    (habs : truthy real = false) :
    (∀ origin, s1 = .ok origin → (parseOrigins origin).length = 1 →
        check_anonymous proxy_str real s1 s2 = ⟨true, some origin, "高匿代理", true⟩)
    ∧ ((check_anonymous proxy_str real s1 s2).isAnonymous = false →
        (check_anonymous proxy_str real s1 s2).origin ≠ none →
        (check_anonymous proxy_str real s1 s2).reason = "普通匿名(多IP)") := by
  refine ⟨fun origin hs1 hlen =>
    hs1 ▸ check_absent_single proxy_str real origin s2 habs hlen, ?_⟩
  intro hanon horig
  cases s1 with
  | timeout => exact absurd rfl horig
  | proxyError => exact absurd rfl horig
  | otherError m => exact absurd rfl horig
  | ok origin =>
    by_cases hlen : (parseOrigins origin).length = 1
    · rw [check_absent_single proxy_str real origin s2 habs hlen] at hanon
      exact absurd hanon (by simp)
    · have hno1 : (truthy real && (parseOrigins origin).contains (real.getD "")) = false := by
        rw [habs]; rfl
      have h2 : ((parseOrigins origin).length != 1) = true := by simp [hlen]
      simp only [check_anonymous]
      rw [hno1, h2]
      rfl

/-- Witness for C6: identity unresolved, single origin differing from
the candidate's host IP, header probe answering with an
identity-looking header — still anonymous. -/
theorem absent_identity_degraded_witness :
    check_anonymous "1.2.3.4:8080" none (.ok "5.6.7.8")
        (.ok [("X-Real-Ip", "7.7.7.7")]) =
      ⟨true, some "5.6.7.8", "高匿代理", true⟩ :=
  (absent_identity_degraded "1.2.3.4:8080" none (.ok "5.6.7.8")
    (.ok [("X-Real-Ip", "7.7.7.7")]) (by decide)).1 "5.6.7.8" rfl (by decide)

/-- C7 counterexample: with an empty candidate set the run does return
the zero counters and probes nothing, but it is not free of network
activity: the identity-resolution request (line 163) precedes the
candidate fetch (line 168) and is performed even for an empty run, so
the event list is the non-empty `[identityFetch]`. -/
theorem empty_run_identity_fetch_cex :
    run (.ok "9.9.9.9") [] = (⟨0, 0, 0⟩, [], [NetEvent.identityFetch])
    ∧ ([NetEvent.identityFetch] : List NetEvent) ≠ [] :=
  ⟨rfl, by simp⟩

/-- C7 as amended: an empty candidate set yields the zero counters, an
empty sink, and exactly one network request — the identity resolution;
no probe request is issued. -/
theorem empty_run_zero_counters (idr : FetchResp) :
    run idr [] = (⟨0, 0, 0⟩, [], [NetEvent.identityFetch]) := rfl

/-- C8 counterexample: when the first identity-resolution call fails,
nothing is cached, so the second call performs another oracle request —
the first call already fetched and returned the unknown sentinel, and
the subsequent call fetches again, refuting "at most one fetch per
run". -/
theorem resolver_refetch_cex :
    (get_real_ip none .fail).2.2 = true
    ∧ (get_real_ip none .fail).1 = none
    ∧ (get_real_ip (get_real_ip none .fail).2.1 .fail).2.2 = true :=
  ⟨rfl, rfl, rfl⟩

/-- C8 as amended: a call with a failing request returns the unknown
sentinel (`none`) without raising; any call whose cache is falsy
performs the request; a call whose cache is truthy returns it without
fetching; and after a first call that succeeds with a non-empty parsed
address, the next call returns the same value without another
request. Memoization therefore holds only after a successful non-empty
resolution — a failed first call is retried by later calls. -/
theorem resolver_memoization_amended (cache : Option String) (r2 : FetchResp)
    (origin : String) :
    ((get_real_ip cache .fail).1 = if truthy cache then cache else none)
    ∧ (truthy cache = false → (get_real_ip cache r2).2.2 = true)
    ∧ (truthy cache = true → get_real_ip cache r2 = (cache, cache, false))
    ∧ (parseRealIp origin ≠ "" →
        get_real_ip (get_real_ip none (.ok origin)).2.1 r2 =
          ((get_real_ip none (.ok origin)).1, (get_real_ip none (.ok origin)).2.1, false)) := by
  refine ⟨?_, ?_, ?_, ?_⟩
  · cases h : truthy cache with
    | true => simp [get_real_ip, h]
    | false => simp [get_real_ip, h]
  · intro h
    cases r2 with
    | fail => simp [get_real_ip, h]
    | ok o => simp [get_real_ip, h]
  · intro h
    simp [get_real_ip, h]
  · intro h
    have h1 : get_real_ip none (.ok origin) =
        (some (parseRealIp origin), some (parseRealIp origin), true) := rfl
    rw [h1]
    have h2 : truthy (some (parseRealIp origin)) = true := by
      simp [truthy, h]
    simp [get_real_ip, h2]

/-- C9: the deduplicated merge over the source collectors yields each
endpoint string at most once; an endpoint appears in the merge exactly
when some non-failed collector emits it (so two collectors both emitting
it contribute it exactly once, count 1); and a failed collector
contributes nothing and does not disturb the remaining collectors — the
merge with it equals the merge without it. -/
theorem dedup_unique_merge (cs : List Collector) (s : String) :
    (fetch_all cs).count s ≤ 1
    ∧ (s ∈ fetch_all cs ↔ ∃ c ∈ cs, c.failed = false ∧ s ∈ c.items)
    ∧ ((∃ c ∈ cs, c.failed = false ∧ s ∈ c.items) → (fetch_all cs).count s = 1)
    ∧ (∀ (pre post : List Collector) (items : List String),
        fetch_all (pre ++ ⟨items, true⟩ :: post) = fetch_all (pre ++ post)) := by
  have hnodup : (fetch_all cs).Nodup := fetchAllLoop_nodup cs []
  have hmem : s ∈ fetch_all cs ↔ ∃ c ∈ cs, c.failed = false ∧ s ∈ c.items := by
    rw [fetch_all, fetchAllLoop_mem]
    simp only [List.not_mem_nil, not_false_iff, and_true]
    constructor
    · rintro ⟨c, hc, hy⟩
      rcases hf : c.failed with _ | _
      · exact ⟨c, hc, hf, by simpa [collectorYield, hf] using hy⟩
      · simp [collectorYield, hf] at hy
    · rintro ⟨c, hc, hf, hy⟩
      exact ⟨c, hc, by simpa [collectorYield, hf] using hy⟩
  refine ⟨List.nodup_iff_count_le_one.mp hnodup s, hmem, ?_, ?_⟩
  · intro h
    exact List.count_eq_one_of_mem hnodup (hmem.mpr h)
  · intro pre post items
    exact fetchAllLoop_skip post items pre []

/-- C10: the nested transparent return of line 118 is dead code — no
input whatsoever makes `_check_anonymous` return its reason "透明代理":
when the single origin equals a known (truthy) real identity, rule 1 at
line 107 has already returned the identity-exposure classification. -/
theorem nested_transparent_unreachable (proxy_str : String) (real : Option String)
    (s1 : Stage1Resp) (s2 : Stage2Resp) :
    (check_anonymous proxy_str real s1 s2).reason ≠ "透明代理" := by
  cases s1 with
  | timeout => simp [check_anonymous]
  | proxyError => simp [check_anonymous]
  | otherError m =>
    simp only [check_anonymous]
    intro h
    have h2 := congrArg String.data h
    rw [String.data_append] at h2
    simp at h2
  | ok origin =>
    cases s2 with
    | fail =>
      simp only [check_anonymous]
      cases hg1 : (truthy real && (parseOrigins origin).contains (real.getD "")) with
      | true => simp
      | false =>
        cases hg2 : ((parseOrigins origin).length != 1) with
        | true => simp
        | false =>
          have hlen : (parseOrigins origin).length = 1 := by simpa using hg2
          rw [thirdGuard_false proxy_str real origin hg1 hlen]
          simp
    | ok headers =>
      simp only [check_anonymous]
      cases hg1 : (truthy real && (parseOrigins origin).contains (real.getD "")) with
      | true => simp
      | false =>
        cases hg2 : ((parseOrigins origin).length != 1) with
        | true => simp
        | false =>
          have hlen : (parseOrigins origin).length = 1 := by simpa using hg2
          rw [thirdGuard_false proxy_str real origin hg1 hlen]
          cases headerLeak real headers with
          | none => simp
          | some hname =>
            intro h
            have h2 : "头部暴露(" ++ hname ++ ")" = "透明代理" := h
            have h3 := congrArg String.data h2
            rw [String.data_append, String.data_append] at h3
            simp at h3

end ProxyPool
